import Mathlib

/-!
Verification of the Lambda Cloud instance-launch script
(`src/launch_instance.py`).

The script is a single interactive procedure: it validates user input
against an embedded catalog, then drives a launch / poll-capacity / retry
loop against the provider's HTTP API.  We embed it shallowly:

* the static catalog and the pure validation helpers become Lean
  functions over association lists;
* the interactive launch loop (lines 211-292 of the script) becomes a
  fuel-indexed interpreter `launchLoop` / `runInner` over a `LoopState`,
  with three oracles in an `Env`: the provider's response to the k-th
  launch call, the provider's response to the k-th capacity poll, and
  the k-th interactive input read inside the loop;
* Python dict accesses are modelled key-by-key: `d.get(k)` is an
  `Option` lookup, `d[k]` on a possibly-missing key is a lookup that
  crashes the run (`Outcome.keyError`) when the key is absent, mirroring
  Python's `KeyError`;
* every HTTP call can instead raise a transport-level exception
  (`requests` timeout, `response.json()` decode failure); the script
  installs no handler anywhere, so such an exception propagates and is
  modelled as the terminal `Outcome.exception`.

The interpreter records, in order, every launch request body it sends
(`LoopState.launches`) and the number of capacity polls it has issued
(`LoopState.polls`), so that theorems can speak about the calls made.
-/

namespace LaunchScript

/-! ## The static catalog and pure helpers -/

/-- The embedded `INSTANCE_TYPES_AND_REGIONS` table of the script,
as an ordered association list (Python dicts preserve insertion order). -/
def INSTANCE_TYPES_AND_REGIONS : List (String × List String) :=
  [ ("gpu_8x_h100_sxm5", ["us-west-3"]),
    ("gpu_1x_h100_pcie", ["us-west-3"]),
    ("gpu_8x_a100_80gb_sxm4", ["us-midwest-1"]),
    ("gpu_1x_a10", ["us-east-1", "us-west-1"]),
    ("gpu_1x_rtx6000", ["us-south-1"]),
    ("gpu_1x_a100", ["us-south-1"]),
    ("gpu_1x_a100_sxm4", ["us-east-1", "us-west-2", "asia-south-1"]),
    ("gpu_2x_a100", ["us-south-1"]),
    ("gpu_4x_a100", ["us-south-1"]),
    ("gpu_8x_a100",
      ["me-west-1", "asia-northeast-2", "us-west-2", "us-west-1",
       "europe-central-1", "asia-northeast-1", "us-east-1"]),
    ("gpu_1x_a6000", ["us-south-1"]),
    ("gpu_2x_a6000", ["us-south-1"]),
    ("gpu_4x_a6000", ["us-south-1"]),
    ("gpu_8x_v100", ["us-south-1"]),
    ("cpu_4x_general", ["not available"]),
    ("gpu_8x_h100_sxm5raidz1", ["us-south-2"]) ]

/-- Result type of `get_regions_for_instance_type`: the Python function
returns either the region list or the string `"Instance type not found"`. -/
inductive RegionsResult where
  | regions (rs : List String)
  | notFound (msg : String)
deriving DecidableEq

/-- Embeds `get_regions_for_instance_type`.  The Python body is
`regions = INSTANCE_TYPES_AND_REGIONS.get(instance_type)` followed by a
truthiness test (`None` and the empty list are both falsy).  Pure: it
consults only the embedded catalog, never the network, and is total
(never raises). -/
def get_regions_for_instance_type (instance_type : String) : RegionsResult :=
  match INSTANCE_TYPES_AND_REGIONS.lookup instance_type with
  | some regions =>
      if regions.isEmpty then .notFound "Instance type not found"
      else .regions regions
  | none => .notFound "Instance type not found"

/-- Python `str.isdigit` restricted to ASCII decimal input: non-empty and
all characters are digits (the script only ever feeds it tty input). -/
def pyIsDigit (s : String) : Bool :=
  !s.data.isEmpty && s.data.all Char.isDigit

/-- Python `int` on a digit string: positional base-10 value. -/
def pyInt (s : String) : Nat :=
  s.data.foldl (fun a c => a * 10 + (c.toNat - 48)) 0

/-- Embeds the quantity-selection prompt loop of `main` (script lines
200-209): it consumes interactive inputs until one is all digits with
value in `1..9`, and returns that raw string (the script never converts
the accepted value; it ships the string in the request body).  `none`
means the input stream was exhausted while still re-prompting.  The loop
body performs no HTTP call: rejection happens entirely client-side. -/
def quantitySelection : List String → Option String
  | [] => none
  | q :: rest =>
      if pyIsDigit q then
        if 1 ≤ pyInt q ∧ pyInt q ≤ 9 then some q else quantitySelection rest
      else quantitySelection rest

/-! ## Response and request payloads -/

/-- A transport-level failure of an HTTP call: `requests` raising on
timeout/connection, or `response.json()` failing to decode the body.
The script installs no `try`/`except`, so these propagate. -/
inductive TransportError where
  | timeout
  | malformedResponse
deriving DecidableEq

/-- The `error` object of a launch response.  The script reads
`error.get("code")` (may be absent, hence `Option`) and prints the whole
object; the API contract says `{code, message}` are present. -/
structure ErrorInfo where
  code : Option String
  message : Option String
deriving DecidableEq

/-- A decoded launch response, modelled by the presence/absence of the
three keys the script ever reads: `data` (payload abstracted to a
string), `error`, and `success` (truthiness of its value when present
--- the live API contract never includes this key). -/
structure LaunchResp where
  data : Option String
  error : Option ErrorInfo
  success : Option Bool
deriving DecidableEq

/-- One element of `regions_with_capacity_available`: the script reads
its `"name"` key. -/
structure RegionEntry where
  name : String
deriving DecidableEq

/-- Per-instance-type details in the capacity response; the script reads
`.get("regions_with_capacity_available", [])`. -/
structure InstanceDetails where
  regions_with_capacity_available : Option (List RegionEntry)
deriving DecidableEq

/-- A decoded `GET instance-types` response; the script reads
`.get("data", {})` and then looks up the desired instance type. -/
structure CapacityResp where
  data : Option (List (String × InstanceDetails))
deriving DecidableEq

/-- The JSON body `launch_instance` posts (script lines 108-114). -/
structure LaunchBody where
  region_name : String
  instance_type_name : String
  ssh_key_names : List String
  file_system_names : List String
  quantity : String
deriving DecidableEq

/-- Embeds `launch_instance` (script lines 99-124): it builds the request
body and performs the POST through `post` (which models
`requests.post` + `response.json()`, and in the interpreter returns an
`Except TransportError LaunchResp`).  There is no exception handler, so
whatever `post` produces is returned unchanged.  `api_key` is sent as
the basic-auth username, not in the body. -/
def launch_instance {ρ : Type} (api_key : String) (region_name : String)
    (desired_instance_type : String) (ssh_key_name : String)
    (file_system_name : Option String) (quantity : String)
    (post : LaunchBody → ρ) : ρ :=
  post { region_name := region_name,
         instance_type_name := desired_instance_type,
         ssh_key_names := [ssh_key_name],
         file_system_names := match file_system_name with
                              | some f => [f]
                              | none => [],
         quantity := quantity }

/-! ## The launch loop as a fuel-indexed interpreter -/

/-- The oracles of a run: the provider's answer to the k-th launch call,
the provider's answer to the k-th capacity poll, and the k-th value read
from interactive input inside the loop.  An `Except.error` models the
HTTP call raising a transport exception. -/
structure Env where
  launchResp : Nat → Except TransportError LaunchResp
  capResp : Nat → Except TransportError CapacityResp
  userInput : Nat → String

/-- The variables of `main` that are never reassigned after the input
phase: the API key, the optional file system, and the accepted quantity
string. -/
structure Config where
  api_key : String
  filesystem_name : Option String
  quantity : String

/-- The mutable variables of the launch loop (`region_name`,
`desired_instance_type`, `ssh_key_name` are reassigned by the script),
plus the observation trace: every launch body sent so far, the number of
capacity polls issued, and the number of interactive inputs consumed. -/
structure LoopState where
  region_name : String
  desired_instance_type : String
  ssh_key_name : String
  launches : List LaunchBody
  polls : Nat
  inputsRead : Nat
deriving DecidableEq

/-- Loop state at entry to the launch loop, right after the input phase:
no launches, no polls, no loop inputs consumed. -/
def initState (region ity ssh : String) : LoopState :=
  { region_name := region, desired_instance_type := ity,
    ssh_key_name := ssh, launches := [], polls := 0, inputsRead := 0 }

/-- How a (fuel-bounded) run of the launch loop ends.  Every constructor
carries the final `LoopState` so the call trace stays observable.
`keyError k` is an uncaught Python `KeyError` on key `k`;
`exception te` is an uncaught transport exception; `running` means the
fuel ran out with the polling loop still going. -/
inductive Outcome where
  | success (payload : String) (s : LoopState)
  | errorExit (e : ErrorInfo) (s : LoopState)
  | keyError (key : String) (s : LoopState)
  | exception (te : TransportError) (s : LoopState)
  | running (s : LoopState)
deriving DecidableEq

/-- The final state carried by an outcome. -/
def outState : Outcome → LoopState
  | .success _ s => s
  | .errorExit _ s => s
  | .keyError _ s => s
  | .exception _ s => s
  | .running s => s

/-- The error code the script treats as retryable (script lines 227,
243). -/
def insufficientCapacityCode : String :=
  "instance-operations/launch/insufficient-capacity"

/-- The request body `launch_instance` sends for the current state. -/
def mkBody (cfg : Config) (s : LoopState) : LaunchBody :=
  { region_name := s.region_name,
    instance_type_name := s.desired_instance_type,
    ssh_key_names := [s.ssh_key_name],
    file_system_names := match cfg.filesystem_name with
                         | some f => [f]
                         | none => [],
    quantity := cfg.quantity }

/-- Issue one launch call through `launch_instance`: the body it posts is
appended to the trace and the provider's scripted answer to this (the
`s.launches.length`-th) launch is returned. -/
def issueLaunch (env : Env) (cfg : Config) (s : LoopState) :
    LoopState × Except TransportError LaunchResp :=
  launch_instance cfg.api_key s.region_name s.desired_instance_type
    s.ssh_key_name cfg.filesystem_name cfg.quantity
    (fun body =>
      ({ s with launches := s.launches ++ [body] },
       env.launchResp s.launches.length))

/-- Handling of the re-attempt response inside the polling loop (script
lines 276-286).  The script branches on `launch_response["success"]`, a
plain subscript: if the key is absent this raises `KeyError`.  When
present and truthy it prints `launch_response["data"]` (another plain
subscript) and stops; when present and falsy it prints
`launch_response["error"]` (plain subscript) and stops.  No branch
returns to the polling loop. -/
def handleReattempt (resp : Except TransportError LaunchResp)
    (s : LoopState) : Outcome :=
  match resp with
  | .error te => .exception te s
  | .ok launch_response =>
      match launch_response.success with
      | none => .keyError "success" s
      | some true =>
          match launch_response.data with
          | some d => .success d s
          | none => .keyError "data" s
      | some false =>
          match launch_response.error with
          | some e => .errorExit e s
          | none => .keyError "error" s

/-- The inner polling loop (`while True:`, script lines 252-290), with
explicit fuel: each unit of fuel is one iteration, i.e. one
`get_available_instances` capacity poll.  With no capacity reported the
script prints and sleeps 2 seconds, then iterates; the sleep is pure
rate-limiting and is not modelled.  When capacity is reported the script
fills an empty region with the first reported region's `name`, reads a
fresh SSH key name from interactive input, launches, and handles the
response with `handleReattempt` --- every branch of which leaves the
loop, so the iteration never continues past a launch. -/
def runInner (env : Env) (cfg : Config) : Nat → LoopState → Outcome
  | 0, s => .running s
  | fuel + 1, s =>
      match env.capResp s.polls with
      | .error te => .exception te { s with polls := s.polls + 1 }
      | .ok instance_data =>
          match (instance_data.data.getD []).lookup s.desired_instance_type with
          | none => runInner env cfg fuel { s with polls := s.polls + 1 }
          | some instance_details =>
              match instance_details.regions_with_capacity_available.getD [] with
              | [] => runInner env cfg fuel { s with polls := s.polls + 1 }
              | r0 :: _ =>
                  let s2 : LoopState :=
                    if s.region_name = "" then
                      { s with polls := s.polls + 1, region_name := r0.name }
                    else { s with polls := s.polls + 1 }
                  let s3 : LoopState :=
                    { s2 with ssh_key_name := env.userInput s2.inputsRead,
                              inputsRead := s2.inputsRead + 1 }
                  let p := issueLaunch env cfg s3
                  handleReattempt p.2 p.1

/-- The pre-poll launch and its error check (script lines 233-250): a
non-capacity error exits with that error; otherwise a `data` key means
success; otherwise (capacity error, or neither key) control falls into
the polling loop. -/
def launchStep2 (env : Env) (cfg : Config) (fuel : Nat) (s : LoopState) :
    Outcome :=
  let p := issueLaunch env cfg s
  match p.2 with
  | .error te => .exception te p.1
  | .ok launch_response =>
      match launch_response.error with
      | some e =>
          if e.code ≠ some insufficientCapacityCode then .errorExit e p.1
          else
            match launch_response.data with
            | some d => .success d p.1
            | none => runInner env cfg fuel p.1
      | none =>
          match launch_response.data with
          | some d => .success d p.1
          | none => runInner env cfg fuel p.1

/-- The launch loop of `main` (script lines 211-292).  The outer
`while continue_loop:` body runs at most once: every path either breaks
out or enters the inner polling loop, and every exit of the inner loop
sets `continue_loop = False`; so the outer loop is modelled as a single
pass.  When the user left the region empty, the script first overwrites
`region_name` with `"us-south-1"` and `desired_instance_type` with
`"gpu_8x_h100_sxm5"`, launches once with those values and checks only
for a non-capacity error (script lines 214-230), then falls through to
the unconditional launch of `launchStep2`. -/
def launchLoop (env : Env) (cfg : Config) (fuel : Nat) (s0 : LoopState) :
    Outcome :=
  if s0.region_name = "" then
    let s : LoopState :=
      { s0 with region_name := "us-south-1",
                desired_instance_type := "gpu_8x_h100_sxm5" }
    let p := issueLaunch env cfg s
    match p.2 with
    | .error te => .exception te p.1
    | .ok launch_response =>
        match launch_response.error with
        | some e =>
            if e.code ≠ some insufficientCapacityCode then .errorExit e p.1
            else launchStep2 env cfg fuel p.1
        | none => launchStep2 env cfg fuel p.1
  else launchStep2 env cfg fuel s0

/-! ## Predicates on responses and outcomes -/

/-- A scripted launch answer is a retryable capacity failure: the HTTP
call decoded, the body has no `data` key, and its `error.code` is the
insufficient-capacity code. -/
def isCapacityError (r : Except TransportError LaunchResp) : Bool :=
  match r with
  | .error _ => false
  | .ok resp =>
      resp.data.isNone &&
      (match resp.error with
       | some e => e.code == some insufficientCapacityCode
       | none => false)

/-- A scripted capacity-poll answer reports no region with capacity for
instance type `ity`: it decoded, and either its `data` dict (defaulted
to empty) has no entry for `ity`, or that entry's
`regions_with_capacity_available` (defaulted to `[]`) is empty. -/
def pollNoCapacity (ity : String) (r : Except TransportError CapacityResp) :
    Bool :=
  match r with
  | .error _ => false
  | .ok cap =>
      match (cap.data.getD []).lookup ity with
      | none => true
      | some det => (det.regions_with_capacity_available.getD []).isEmpty

/-- The instance type the polling loop looks up: the script's fallback
overwrites it with `"gpu_8x_h100_sxm5"` exactly when the region was left
empty. -/
def effInstType (s : LoopState) : String :=
  if s.region_name = "" then "gpu_8x_h100_sxm5" else s.desired_instance_type

/-- The response satisfies the spec's payload contract: no `success`
key, and exactly one of `data` or an `error` object that carries both
`code` and `message`. -/
def contractOK (r : LaunchResp) : Bool :=
  r.success.isNone &&
  ((r.data.isSome && r.error.isNone) ||
   (r.data.isNone &&
    (match r.error with
     | some e => e.code.isSome && e.message.isSome
     | none => false)))

/-- The run ended in an uncaught `KeyError` on key `k`. -/
def crashedOnKey (k : String) : Outcome → Bool
  | .keyError k2 _ => k == k2
  | _ => false

/-- The run ended by printing a provider error and exiting (the
script's Error outcome). -/
def isErrorExitB : Outcome → Bool
  | .errorExit _ _ => true
  | _ => false

/-- The run ended with an uncaught transport exception. -/
def isExceptionB : Outcome → Bool
  | .exception _ _ => true
  | _ => false

/-! ## Concrete scenario material -/

/-- The insufficient-capacity error object the provider returns. -/
def icError : ErrorInfo :=
  { code := some insufficientCapacityCode,
    message := some "Not enough capacity to fulfill launch request." }

/-- A contract-conforming insufficient-capacity launch response. -/
def icResp : LaunchResp := { data := none, error := some icError, success := none }

/-- A contract-conforming non-capacity provider error. -/
def otherError : ErrorInfo :=
  { code := some "ssh-key/not-found", message := some "SSH key not found." }

/-- A launch response carrying the non-capacity error. -/
def otherResp : LaunchResp :=
  { data := none, error := some otherError, success := none }

/-- A contract-conforming successful launch response. -/
def okResp : LaunchResp :=
  { data := some "instance_ids [i-123]", error := none, success := none }

/-- A capacity response reporting capacity for `ity` in exactly the
named regions, in order. -/
def capWith (ity : String) (names : List String) : CapacityResp :=
  { data := some
      [(ity, { regions_with_capacity_available :=
                 some (names.map (fun n => { name := n })) })] }

/-- A capacity response whose `data` dict is empty: no capacity
anywhere. -/
def capEmpty : CapacityResp := { data := some [] }

/-- The input-phase configuration used by the concrete scenarios. -/
def cfgDefault : Config :=
  { api_key := "test-api-key", filesystem_name := none, quantity := "1" }

/-- Scenario for the empty-region claim: both pre-poll launches hit
insufficient capacity, every capacity poll reports `us-east-1` as the
first (and only) region with capacity for `gpu_8x_h100_sxm5` (the type
the fallback switched to), and any later launch succeeds with a
legacy-style truthy `success` key so the run terminates cleanly. -/
def envC1 : Env :=
  { launchResp := fun k =>
      if k < 2 then .ok icResp
      else .ok { data := some "instance_ids [i-123]", error := none,
                 success := some true },
    capResp := fun _ => .ok (capWith "gpu_8x_h100_sxm5" ["us-east-1"]),
    userInput := fun _ => "retry-key" }

/-- Launch-loop entry state with the region left empty. -/
def s0C1 : LoopState := initState "" "gpu_1x_a10" "validated-key"

/-- Scenario for the re-attempt-retry claim: the user pinned
`us-east-1`, the first launch and the re-attempt both report
insufficient capacity (contract-conforming responses with no `success`
key), and the poll reports capacity. -/
def envC3 : Env :=
  { launchResp := fun _ => .ok icResp,
    capResp := fun _ => .ok (capWith "gpu_1x_a10" ["us-east-1"]),
    userInput := fun _ => "retry-key" }

/-- Launch-loop entry state with region pinned to `us-east-1`. -/
def s0C3 : LoopState := initState "us-east-1" "gpu_1x_a10" "validated-key"

/-- Scenario for the immutability claim: region left empty, and the very
first launch call is answered with a non-capacity error so the run stops
after one call. -/
def envC4 : Env :=
  { launchResp := fun _ => .ok otherResp,
    capResp := fun _ => .ok capEmpty,
    userInput := fun _ => "retry-key" }

/-- Launch-loop entry state for the immutability scenario: the request
was constructed for `gpu_1x_a10` with the region left empty. -/
def s0C4 : LoopState := initState "" "gpu_1x_a10" "validated-key"

/-- Scenario for the totality claim: region pinned, first launch hits
insufficient capacity, the poll reports capacity, and the re-attempt
SUCCEEDS with a contract-conforming `data` response (no `success`
key). -/
def envC5 : Env :=
  { launchResp := fun k => if k == 0 then .ok icResp else .ok okResp,
    capResp := fun _ => .ok (capWith "gpu_1x_a10" ["us-east-1"]),
    userInput := fun _ => "retry-key" }

/-- Launch-loop entry state for the totality scenario. -/
def s0C5 : LoopState := initState "us-east-1" "gpu_1x_a10" "validated-key"

/-- Scenario for the transport-failure claim: the first launch call
times out. -/
def envC6 : Env :=
  { launchResp := fun _ => .error .timeout,
    capResp := fun _ => .ok capEmpty,
    userInput := fun _ => "retry-key" }

/-- Launch-loop entry state for the transport-failure scenario. -/
def s0C6 : LoopState := initState "us-east-1" "gpu_1x_a10" "validated-key"

/-- Witness scenario for the amended transport-failure claim. -/
def envC6W : Env :=
  { launchResp := fun _ => .error .timeout,
    capResp := fun _ => .error .malformedResponse,
    userInput := fun _ => "retry-key" }

/-- Entry state for the transport-failure witness. -/
def s0C6W : LoopState := initState "" "gpu_1x_a10" "validated-key"

/-- Witness scenario for a transport failure at the in-loop re-attempt
launch: the capacity poll decodes fine and reports capacity, but the
launch call issued from inside the polling loop times out. -/
def envC6R : Env :=
  { launchResp := fun _ => .error .timeout,
    capResp := fun _ => .ok (capWith "gpu_1x_a10" ["us-east-1"]),
    userInput := fun _ => "retry-key" }

/-- Entry state for the re-attempt transport-failure witness. -/
def s0C6R : LoopState := initState "us-east-1" "gpu_1x_a10" "validated-key"

/-- The capacity details `envC6R` reports for `gpu_1x_a10`. -/
def detC6R : InstanceDetails :=
  { regions_with_capacity_available := some [{ name := "us-east-1" }] }

/-- Witness scenario for the unbounded-retry claim: every launch hits
insufficient capacity and every poll reports an empty capacity dict. -/
def envC7W : Env :=
  { launchResp := fun _ => .ok icResp,
    capResp := fun _ => .ok capEmpty,
    userInput := fun _ => "retry-key" }

/-- Entry state for the unbounded-retry witness. -/
def s0C7W : LoopState := initState "us-east-1" "gpu_1x_a10" "validated-key"

/-- Witness scenario for the immediate-error claim. -/
def envC2W : Env :=
  { launchResp := fun _ => .ok otherResp,
    capResp := fun _ => .ok capEmpty,
    userInput := fun _ => "retry-key" }

/-- Entry state for the immediate-error witness. -/
def s0C2W : LoopState := initState "us-east-1" "gpu_1x_a10" "validated-key"

/-- Witness scenario for the fresh-SSH-key claim: the poll reports
capacity and the loop's interactive input stream supplies
`"fresh-key"`, different from the validated key in the state. -/
def envC10W : Env :=
  { launchResp := fun _ => .ok icResp,
    capResp := fun _ => .ok (capWith "gpu_1x_a10" ["us-east-1"]),
    userInput := fun _ => "fresh-key" }

/-- Entry state for the fresh-SSH-key witness: the key validated at
startup was `"validated-key"`. -/
def s0C10W : LoopState := initState "us-east-1" "gpu_1x_a10" "validated-key"

/-- The launch body the fresh-SSH-key witness run sends. -/
def bodyC10W : LaunchBody :=
  { region_name := "us-east-1", instance_type_name := "gpu_1x_a10",
    ssh_key_names := ["fresh-key"], file_system_names := [],
    quantity := "1" }

/-! ## Helper lemmas -/

/-- `handleReattempt` returns the state it was given in every branch. -/
theorem outState_handleReattempt (resp : Except TransportError LaunchResp)
    (s : LoopState) : outState (handleReattempt resp s) = s := by
  unfold handleReattempt
  split
  · rfl
  · split
    · rfl
    · split <;> rfl
    · split <;> rfl

/-- Destructor for `isCapacityError`: the response decoded, carries no
`data`, and its error code is the insufficient-capacity code. -/
theorem isCapacityError_spec (r : Except TransportError LaunchResp)
    (h : isCapacityError r = true) :
    ∃ resp e, r = .ok resp ∧ resp.data = none ∧ resp.error = some e ∧
      e.code = some insufficientCapacityCode := by
  rw [isCapacityError.eq_def] at h
  cases r with
  | error te => simp at h
  | ok resp =>
    simp only [Bool.and_eq_true, Option.isNone_iff_eq_none] at h
    obtain ⟨hd, he⟩ := h
    cases herr : resp.error with
    | none => rw [herr] at he; simp at he
    | some e =>
      rw [herr] at he
      simp only [beq_iff_eq] at he
      exact ⟨resp, e, rfl, hd, herr, he⟩

/-- When every capacity poll reports no region with capacity for the
looked-up instance type, each polling iteration only increments the poll
counter: after `fuel` iterations the loop is still running, having
issued exactly `fuel` more polls and nothing else. -/
theorem runInner_noCapacity (env : Env) (cfg : Config) (ity : String)
    (hcap : ∀ k, pollNoCapacity ity (env.capResp k) = true) :
    ∀ fuel s, s.desired_instance_type = ity →
      runInner env cfg fuel s = .running { s with polls := s.polls + fuel } := by
  intro fuel
  induction fuel with
  | zero => intro s _; simp [runInner]
  | succ n ih =>
    intro s hs
    have hc := hcap s.polls
    rw [pollNoCapacity.eq_def] at hc
    rw [← hs] at hc
    have harith : s.polls + 1 + n = s.polls + (n + 1) := by omega
    rw [runInner]
    split
    case _ te heq => rw [heq] at hc; simp at hc
    case _ cap heq =>
      rw [heq] at hc
      simp only [] at hc
      split
      case _ hl =>
        rw [ih { s with polls := s.polls + 1 } (by simpa using hs)]
        simp [harith]
      case _ det hl =>
        rw [hl] at hc
        simp only [] at hc
        split
        case _ hemp =>
          rw [ih { s with polls := s.polls + 1 } (by simpa using hs)]
          simp [harith]
        case _ r0 tail hreg =>
          rw [hreg] at hc
          simp [List.isEmpty] at hc

/-- Every launch body the polling loop adds to the trace carries the
configuration's quantity. -/
theorem runInner_quantity (env : Env) (cfg : Config) :
    ∀ fuel s c, c ∈ (outState (runInner env cfg fuel s)).launches →
      c ∈ s.launches ∨ c.quantity = cfg.quantity := by
  intro fuel
  induction fuel with
  | zero => intro s c h; exact Or.inl h
  | succ n ih =>
    intro s c h
    rw [runInner] at h
    split at h
    case _ te heq => simp [outState] at h; exact Or.inl h
    case _ cap heq =>
      split at h
      case _ hl => exact ih { s with polls := s.polls + 1 } c h
      case _ det hl =>
        split at h
        case _ hemp => exact ih { s with polls := s.polls + 1 } c h
        case _ r0 tail hreg =>
          rw [outState_handleReattempt] at h
          simp only [issueLaunch, launch_instance] at h
          by_cases hx : s.region_name = ""
          · simp only [if_pos hx, List.mem_append, List.mem_singleton] at h
            rcases h with h | h
            · exact Or.inl h
            · subst h; exact Or.inr rfl
          · simp only [if_neg hx, List.mem_append, List.mem_singleton] at h
            rcases h with h | h
            · exact Or.inl h
            · subst h; exact Or.inr rfl

/-- Every launch body the pre-poll launch step adds to the trace carries
the configuration's quantity. -/
theorem launchStep2_quantity (env : Env) (cfg : Config) (fuel : Nat) (s : LoopState)
    (c : LaunchBody) (h : c ∈ (outState (launchStep2 env cfg fuel s)).launches) :
    c ∈ s.launches ∨ c.quantity = cfg.quantity := by
  simp only [launchStep2, issueLaunch, launch_instance] at h
  split at h
  case _ te heq =>
    simp only [outState, List.mem_append, List.mem_singleton] at h
    rcases h with h | h
    · exact Or.inl h
    · subst h; exact Or.inr rfl
  case _ lr heq =>
    split at h
    case _ e herr =>
      split at h
      case _ hne =>
        simp only [outState, List.mem_append, List.mem_singleton] at h
        rcases h with h | h
        · exact Or.inl h
        · subst h; exact Or.inr rfl
      case _ hne =>
        split at h
        case _ d hd =>
          simp only [outState, List.mem_append, List.mem_singleton] at h
          rcases h with h | h
          · exact Or.inl h
          · subst h; exact Or.inr rfl
        case _ hd =>
          rcases runInner_quantity env cfg fuel _ c h with h2 | h2
          · simp only [List.mem_append, List.mem_singleton] at h2
            rcases h2 with h2 | h2
            · exact Or.inl h2
            · subst h2; exact Or.inr rfl
          · exact Or.inr h2
    case _ herr =>
      split at h
      case _ d hd =>
        simp only [outState, List.mem_append, List.mem_singleton] at h
        rcases h with h | h
        · exact Or.inl h
        · subst h; exact Or.inr rfl
      case _ hd =>
        rcases runInner_quantity env cfg fuel _ c h with h2 | h2
        · simp only [List.mem_append, List.mem_singleton] at h2
          rcases h2 with h2 | h2
          · exact Or.inl h2
          · subst h2; exact Or.inr rfl
        · exact Or.inr h2

/-- Every launch body the whole launch loop adds to the trace carries the
configuration's quantity. -/
theorem launchLoop_quantity (env : Env) (cfg : Config) (fuel : Nat) (s0 : LoopState)
    (c : LaunchBody) (h : c ∈ (outState (launchLoop env cfg fuel s0)).launches) :
    c ∈ s0.launches ∨ c.quantity = cfg.quantity := by
  rw [launchLoop] at h
  by_cases hreg : s0.region_name = ""
  · rw [if_pos hreg] at h
    simp only [issueLaunch, launch_instance] at h
    split at h
    case _ te heq =>
      simp only [outState, List.mem_append, List.mem_singleton] at h
      rcases h with h | h
      · exact Or.inl h
      · subst h; exact Or.inr rfl
    case _ lr heq =>
      split at h
      case _ e herr =>
        split at h
        case _ hne =>
          simp only [outState, List.mem_append, List.mem_singleton] at h
          rcases h with h | h
          · exact Or.inl h
          · subst h; exact Or.inr rfl
        case _ hne =>
          rcases launchStep2_quantity env cfg fuel _ c h with h2 | h2
          · simp only [List.mem_append, List.mem_singleton] at h2
            rcases h2 with h2 | h2
            · exact Or.inl h2
            · subst h2; exact Or.inr rfl
          · exact Or.inr h2
      case _ herr =>
        rcases launchStep2_quantity env cfg fuel _ c h with h2 | h2
        · simp only [List.mem_append, List.mem_singleton] at h2
          rcases h2 with h2 | h2
          · exact Or.inl h2
          · subst h2; exact Or.inr rfl
        · exact Or.inr h2
  · rw [if_neg hreg] at h
    exact launchStep2_quantity env cfg fuel s0 c h

/-- Any quantity string the selection loop accepts has numeric value in
`1..9`. -/
theorem quantitySelection_range :
    ∀ inputs q, quantitySelection inputs = some q →
      1 ≤ pyInt q ∧ pyInt q ≤ 9 := by
  intro inputs
  induction inputs with
  | nil => intro q h; simp [quantitySelection] at h
  | cons i rest ih =>
    intro q h
    rw [quantitySelection] at h
    split at h
    case _ hd =>
      split at h
      case _ hcond => injection h with h2; subst h2; exact hcond
      case _ hcond => exact ih q h
    case _ hd => exact ih q h

/-! ## Claim theorems -/

/-- Claim C1.  The claim says: when the caller specified no fixed region
and, after an insufficient-capacity first launch, a capacity poll
reports region `us-east-1` first, the next launch attempt uses
`us-east-1`.  The code violates this: the empty-region fallback (script
lines 214-216) overwrites the empty region with `"us-south-1"` (and the
instance type with `"gpu_8x_h100_sxm5"`) before the polling loop ever
runs, so the `region_name == ""` branch inside the loop (lines 262-263)
is unreachable and the reported ordering is ignored.  In the concrete
run below every capacity poll reports `us-east-1` as the first (and
only) region with capacity, yet every launch call of the execution ---
including the re-attempt issued from the polling loop --- is sent with
region `us-south-1`. -/
theorem empty_region_run_ignores_reported_capacity :
    (outState (launchLoop envC1 cfgDefault 1 s0C1)).launches.map
        LaunchBody.region_name = ["us-south-1", "us-south-1", "us-south-1"] ∧
    envC1.capResp 0 = .ok (capWith "gpu_8x_h100_sxm5" ["us-east-1"]) :=
  ⟨rfl, rfl⟩

/-- Claim C2: if the first launch call returns an error whose code is
not the insufficient-capacity code, the loop exits with exactly that
error and issues no capacity poll (the final poll count is still 0).
This holds on both paths: with a pinned region the first launch is the
unconditional one (script line 233), with an empty region it is the
fallback launch (line 217); both check the error code before any
`get_available_instances` call. -/
theorem noncapacity_error_exits_without_capacity_poll (env : Env)
    (cfg : Config) (fuel : Nat) (s0 : LoopState) (r : LaunchResp)
    (e : ErrorInfo) (h0 : s0.launches = []) (hp : s0.polls = 0)
    (hr : env.launchResp 0 = .ok r) (he : r.error = some e)
    (hc : e.code ≠ some insufficientCapacityCode) :
    ∃ s, launchLoop env cfg fuel s0 = .errorExit e s ∧ s.polls = 0 := by
  by_cases hreg : s0.region_name = ""
  · simp only [launchLoop, launchStep2, issueLaunch, launch_instance,
      if_pos hreg, h0, List.length_nil, hr, he]
    simp only [hc, ite_true, ne_eq, not_false_iff, if_pos]
    exact ⟨_, rfl, by simp [hp]⟩
  · simp only [launchLoop, launchStep2, issueLaunch, launch_instance,
      if_neg hreg, h0, List.length_nil, hr, he]
    simp only [hc, ite_true, ne_eq, not_false_iff, if_pos]
    exact ⟨_, rfl, by simp [hp]⟩

/-- Witness for claim C2: a concrete run where the first launch returns
the non-capacity error `ssh-key/not-found` exits with that error after
zero capacity polls. -/
theorem noncapacity_error_exits_without_capacity_poll_witness :
    ∃ s, launchLoop envC2W cfgDefault 7 s0C2W = .errorExit otherError s ∧
      s.polls = 0 :=
  noncapacity_error_exits_without_capacity_poll envC2W cfgDefault 7 s0C2W
    otherResp otherError rfl rfl rfl rfl (by decide)

/-- Claim C3.  The claim says: when the re-attempt issued from the
polling loop again returns insufficient capacity, the procedure sleeps
and resumes polling.  The code violates this: the re-attempt response is
handled by `if launch_response["success"]:` (script line 276), and under
the API's data/error payload there is no `success` key, so the access
raises `KeyError` and the run aborts (and even with a falsy `success`
value present, the `else` branch prints the error and terminates the
loop).  In the concrete run below the re-attempt returns a
contract-conforming insufficient-capacity error; with fuel for five
polling iterations the run ends in the `KeyError` crash after a single
poll --- it never resumes polling. -/
theorem reattempt_capacity_error_crashes_instead_of_repolling :
    crashedOnKey "success" (launchLoop envC3 cfgDefault 5 s0C3) = true ∧
    (outState (launchLoop envC3 cfgDefault 5 s0C3)).polls = 1 :=
  ⟨rfl, rfl⟩

/-- Claim C4.  The claim says quantity and instance type never change
during a launch attempt, including when the caller left the region
empty.  The code violates the instance-type half: with an empty region
the fallback (script line 216) rewrites `desired_instance_type` to
`"gpu_8x_h100_sxm5"`.  In the concrete run below the request was
constructed for `gpu_1x_a10`, yet the launch call that is issued carries
`gpu_8x_h100_sxm5`. -/
theorem fallback_rewrites_instance_type :
    (outState (launchLoop envC4 cfgDefault 0 s0C4)).launches.map
        LaunchBody.instance_type_name = ["gpu_8x_h100_sxm5"] ∧
    s0C4.desired_instance_type = "gpu_1x_a10" :=
  ⟨rfl, rfl⟩

/-- Claim C5.  The claim says that under the response contract (a `data`
key, or an `error` key with `{code, message}`, and nothing else
branching-relevant) handling any launch response never fails with a
missing-key access.  The code violates this inside the polling loop: the
re-attempt handler reads `launch_response["success"]` (script line 276),
a key the contract never provides, so even a contract-conforming
SUCCESSFUL `data` response makes the run abort with `KeyError`.  In the
concrete run below both responses satisfy the contract
(`contractOK`), the re-attempt succeeds with a `data` payload, and the
run still crashes on the missing `success` key. -/
theorem contract_responses_still_crash_on_success_key :
    contractOK icResp = true ∧ contractOK okResp = true ∧
    crashedOnKey "success" (launchLoop envC5 cfgDefault 3 s0C5) = true :=
  ⟨rfl, rfl, rfl⟩

/-- Counterexample for claim C6.  The claim says a transport-level
failure is returned to the caller as an Error outcome carrying a generic
code that terminates the retry loop.  In the concrete run below the
first launch call times out: the outcome is an uncaught transport
exception (`Outcome.exception`), not the script's Error outcome
(`Outcome.errorExit`, the path that surfaces a code+message error value
to the operator) --- the script has no `try`/`except`, so the exception
escapes. -/
theorem transport_failure_is_not_an_error_outcome :
    isExceptionB (launchLoop envC6 cfgDefault 3 s0C6) = true ∧
    isErrorExitB (launchLoop envC6 cfgDefault 3 s0C6) = false :=
  ⟨rfl, rfl⟩

/-- Claim C6 as amended: a transport-level failure during an
orchestrator HTTP call escapes as an uncaught exception that terminates
the retry loop; it is not converted into an Error outcome.  The four
conjuncts cover every HTTP call the launch loop makes, one per call
site: (1) the fallback launch issued when the region is empty (script
line 217); (2) the unconditional pre-poll launch (line 233), stated for
an arbitrary loop state so it covers both the pinned-region first
launch and the second launch after the fallback; (3) any capacity poll
inside the polling loop (line 254); (4) the re-attempt launch issued
from inside the polling loop once a poll reports capacity (line 267).
In each case the scripted transport error on that very call is the
run's outcome. -/
theorem transport_failure_escapes_as_uncaught_exception :
    (∀ (env : Env) (cfg : Config) (fuel : Nat) (s0 : LoopState)
       (te : TransportError), s0.region_name = "" →
       env.launchResp s0.launches.length = .error te →
       ∃ s, launchLoop env cfg fuel s0 = .exception te s) ∧
    (∀ (env : Env) (cfg : Config) (fuel : Nat) (s : LoopState)
       (te : TransportError), env.launchResp s.launches.length = .error te →
       ∃ s2, launchStep2 env cfg fuel s = .exception te s2) ∧
    (∀ (env : Env) (cfg : Config) (fuel : Nat) (s : LoopState)
       (te : TransportError), env.capResp s.polls = .error te →
       ∃ s2, runInner env cfg (fuel + 1) s = .exception te s2) ∧
    (∀ (env : Env) (cfg : Config) (fuel : Nat) (s : LoopState)
       (te : TransportError) (cap : CapacityResp) (det : InstanceDetails),
       env.capResp s.polls = .ok cap →
       (cap.data.getD []).lookup s.desired_instance_type = some det →
       det.regions_with_capacity_available.getD [] ≠ [] →
       env.launchResp s.launches.length = .error te →
       ∃ s2, runInner env cfg (fuel + 1) s = .exception te s2) := by
  refine ⟨?_, ?_, ?_, ?_⟩
  · intro env cfg fuel s0 te hreg hr
    simp only [launchLoop, launchStep2, issueLaunch, launch_instance,
      if_pos hreg, hr]
    exact ⟨_, rfl⟩
  · intro env cfg fuel s te hr
    simp only [launchStep2, issueLaunch, launch_instance, hr]
    exact ⟨_, rfl⟩
  · intro env cfg fuel s te hr
    rw [runInner, hr]
    exact ⟨_, rfl⟩
  · intro env cfg fuel s te cap det hcap hl hne hr
    rw [runInner]
    split
    case _ te2 heq => rw [heq] at hcap; exact absurd hcap (by simp)
    case _ cap2 heq =>
      rw [heq] at hcap
      injection hcap with h2
      subst h2
      split
      case _ hl2 => rw [hl2] at hl; exact absurd hl (by simp)
      case _ det2 hl2 =>
        rw [hl2] at hl
        injection hl with h3
        subst h3
        split
        case _ hemp => exact absurd hemp hne
        case _ r0 tail hreg2 =>
          simp only [issueLaunch, launch_instance]
          by_cases hx : s.region_name = ""
          · simp only [if_pos hx, hr, handleReattempt]
            exact ⟨_, rfl⟩
          · simp only [if_neg hx, hr, handleReattempt]
            exact ⟨_, rfl⟩

/-- Witness for the amended claim C6, exercising two of the call sites
concretely: a run whose fallback launch call times out ends in the
uncaught-exception outcome, and a polling-loop iteration whose poll
reports capacity but whose re-attempt launch times out also ends in the
uncaught-exception outcome. -/
theorem transport_failure_escapes_as_uncaught_exception_witness :
    (∃ s, launchLoop envC6W cfgDefault 2 s0C6W = .exception .timeout s) ∧
    (∃ s2, runInner envC6R cfgDefault 1 s0C6R = .exception .timeout s2) := by
  constructor
  · exact transport_failure_escapes_as_uncaught_exception.1 envC6W
      cfgDefault 2 s0C6W .timeout rfl rfl
  · exact transport_failure_escapes_as_uncaught_exception.2.2.2 envC6R
      cfgDefault 0 s0C6R .timeout (capWith "gpu_1x_a10" ["us-east-1"])
      detC6R rfl rfl (by decide) rfl

/-- Claim C7: when the first launch (and, on the empty-region path, the
follow-up launch as well) reports insufficient capacity and every
capacity poll reports no region with capacity, the polling loop never
terminates: for every fuel bound `n`, the run truncated after `n`
polling iterations is still in the `running` state and has issued
exactly `n` capacity polls --- so the unbounded execution performs more
than `n` polls for every `n`.  There is no retry cap or timeout in the
loop. -/
theorem no_capacity_polling_never_terminates (env : Env) (cfg : Config)
    (s0 : LoopState) (h0 : s0.launches = []) (hp : s0.polls = 0)
    (h1 : isCapacityError (env.launchResp 0) = true)
    (h2 : isCapacityError (env.launchResp 1) = true)
    (hcap : ∀ k, pollNoCapacity (effInstType s0) (env.capResp k) = true) :
    ∀ fuel, ∃ s, launchLoop env cfg fuel s0 = .running s ∧
      s.polls = fuel := by
  intro fuel
  obtain ⟨r0, e0, hr0, hd0, he0, hc0⟩ := isCapacityError_spec _ h1
  obtain ⟨r1, e1, hr1, hd1, he1, hc1⟩ := isCapacityError_spec _ h2
  by_cases hreg : s0.region_name = ""
  · rw [effInstType, if_pos hreg] at hcap
    simp only [launchLoop, launchStep2, issueLaunch, launch_instance,
      if_pos hreg, h0, List.length_nil, hr0, he0, hc0]
    simp only [ne_eq, not_true_eq_false, if_false, ite_false]
    simp only [List.nil_append, List.length_cons, List.length_nil, hr1,
      he1, hc1]
    simp only [ne_eq, not_true_eq_false, ite_false, hd1]
    simp only [runInner_noCapacity env cfg "gpu_8x_h100_sxm5" hcap fuel]
    exact ⟨_, rfl, by simp [hp]⟩
  · rw [effInstType, if_neg hreg] at hcap
    simp only [launchLoop, launchStep2, issueLaunch, launch_instance,
      if_neg hreg, h0, List.length_nil, hr0, he0, hc0]
    simp only [ne_eq, not_true_eq_false, ite_false, hd0]
    simp only [runInner_noCapacity env cfg s0.desired_instance_type hcap fuel]
    exact ⟨_, rfl, by simp [hp]⟩

/-- Witness for claim C7: with every launch answering insufficient
capacity and every poll reporting an empty capacity table, the run with
fuel 4 is still running after exactly 4 polls. -/
theorem no_capacity_polling_never_terminates_witness :
    ∃ s, launchLoop envC7W cfgDefault 4 s0C7W = .running s ∧ s.polls = 4 :=
  no_capacity_polling_never_terminates envC7W cfgDefault s0C7W rfl rfl
    (by decide) (by decide) (fun _ => rfl) 4

/-- Claim C8: for every instance type that is not a key of the embedded
catalog, `get_regions_for_instance_type` returns the not-found
indication (the string `"Instance type not found"`).  The function is a
total Lean function over the embedded catalog: it performs no network
access and cannot raise. -/
theorem unknown_instance_type_not_found (t : String)
    (h : INSTANCE_TYPES_AND_REGIONS.lookup t = none) :
    get_regions_for_instance_type t = .notFound "Instance type not found" := by
  simp [get_regions_for_instance_type, h]

/-- Witness for claim C8 at the concrete unknown type `gpu_9000x`. -/
theorem unknown_instance_type_not_found_witness :
    get_regions_for_instance_type "gpu_9000x" =
      .notFound "Instance type not found" :=
  unknown_instance_type_not_found "gpu_9000x" (by decide)

/-- Claim C9: (1) any quantity string accepted by the client-side
selection loop has numeric value in `1..9` --- the loop itself makes no
network call (it is a pure function of the input stream); (2) every
launch request body issued during any execution of the launch loop whose
configuration carries an accepted quantity has its quantity in `1..9`;
(3) the inputs `"0"` and `"10"` are rejected (the loop re-prompts and
never accepts them). -/
theorem quantity_bound_enforced (inputs : List String) (q : String)
    (hq : quantitySelection inputs = some q) :
    (1 ≤ pyInt q ∧ pyInt q ≤ 9) ∧
    (∀ (env : Env) (cfg : Config) (fuel : Nat) (s0 : LoopState)
       (c : LaunchBody), cfg.quantity = q → s0.launches = [] →
       c ∈ (outState (launchLoop env cfg fuel s0)).launches →
       1 ≤ pyInt c.quantity ∧ pyInt c.quantity ≤ 9) ∧
    quantitySelection ["0"] = none ∧ quantitySelection ["10"] = none := by
  have hr := quantitySelection_range inputs q hq
  refine ⟨hr, ?_, by decide, by decide⟩
  intro env cfg fuel s0 c hcq h0 hc
  rcases launchLoop_quantity env cfg fuel s0 c hc with h | h
  · rw [h0] at h
    exact absurd h (List.not_mem_nil c)
  · rw [h, hcq]
    exact hr

/-- Witness for claim C9: from the concrete prompt session
`["abc", "0", "10", "3"]` the loop accepts `"3"`, whose value is in
`1..9`. -/
theorem quantity_bound_enforced_witness : 1 ≤ pyInt "3" ∧ pyInt "3" ≤ 9 :=
  (quantity_bound_enforced ["abc", "0", "10", "3"] "3" (by decide)).1

/-- Claim C10: every launch request body issued from inside the polling
loop carries as its SSH key exactly the next value read from interactive
input at that point (`input("SSH key name: ")`, script line 264),
whatever SSH key was validated and stored in the loop state at startup
--- the validated key is not what is sent. -/
theorem polling_reattempt_reads_fresh_ssh_key (env : Env) (cfg : Config) :
    ∀ fuel s c, c ∈ (outState (runInner env cfg fuel s)).launches →
      c ∉ s.launches → c.ssh_key_names = [env.userInput s.inputsRead] := by
  intro fuel
  induction fuel with
  | zero => intro s c h hn; exact absurd h hn
  | succ n ih =>
    intro s c h hn
    rw [runInner] at h
    split at h
    case _ te heq => simp [outState] at h; exact absurd h hn
    case _ cap heq =>
      split at h
      case _ hl => exact ih { s with polls := s.polls + 1 } c h hn
      case _ det hl =>
        split at h
        case _ hemp => exact ih { s with polls := s.polls + 1 } c h hn
        case _ r0 tail hreg =>
          rw [outState_handleReattempt] at h
          simp only [issueLaunch, launch_instance] at h
          by_cases hx : s.region_name = ""
          · simp only [if_pos hx, List.mem_append, List.mem_singleton] at h
            rcases h with h | h
            · exact absurd h hn
            · subst h; rfl
          · simp only [if_neg hx, List.mem_append, List.mem_singleton] at h
            rcases h with h | h
            · exact absurd h hn
            · subst h; rfl

/-- Witness for claim C10: in a concrete polling-loop run whose state
holds the startup-validated key `validated-key` while the interactive
input supplies `fresh-key`, the launch body that the loop issues carries
`fresh-key`. -/
theorem polling_reattempt_reads_fresh_ssh_key_witness :
    bodyC10W.ssh_key_names = [envC10W.userInput s0C10W.inputsRead] :=
  polling_reattempt_reads_fresh_ssh_key envC10W cfgDefault 1 s0C10W
    bodyC10W (by decide) (by decide)

end LaunchScript
